import Mathlib

/-!
Verification of the signature-resolution layer described by the iminuit
documentation material.  The repository ships only notebooks exercising the
layer (`describe`, `make_func_code`, `Minuit` construction); the resolver
itself is external, so the definitions below are modelled from the design
specification and the notebook usage.
-/

namespace SignatureResolver

/-- Modelled from the spec: the introspectable metadata a callable may carry
(the `describe` utility of iminuit is not under src/, only its notebook
callers are).  A callable either declares a fixed, named positional parameter
list, or declares a variable-arity marker (accepts arbitrary positional
arguments with no fixed list). -/
inductive NativeSignature
  | fixedParams (params : List String)
  | varArgs
deriving DecidableEq, Repr

/-- Modelled from the spec: an opaque callable objective function, polymorphic
over calling convention.  `override` is the explicit parameter-name override
attribute a function author or wrapping object may pre-attach (the
`func_code` attribute set via `make_func_code` in the notebooks);
`native` is the introspectable signature metadata, absent for
compiled/foreign functions; `docSignature` is an embedded textual signature
recovered from the documentation string when present (the Cython
`embedsignature` accommodation); `isBound` records that the callable is a
bound method whose first declared formal parameter is a receiver bound to the
enclosing object; `impl` is the underlying numeric computation, taking its
arguments positionally. -/
structure ObjectiveFunction where
  override : Option (List String)
  native : Option NativeSignature
  docSignature : Option (List String)
  isBound : Bool
  impl : List Rat → Rat

/-- Modelled from the spec: the canonical parameter descriptor produced by
resolution — the ordered sequence of parameter names (order defines
positional argument order for every subsequent call) and the resolved
arity. -/
structure ParameterDescriptor where
  names : List String
  arity : Nat
deriving DecidableEq, Repr

/-- Modelled from the spec: optional explicit configuration supplied by the
caller — either an explicit ordered list of names (the `name=("x","y","z")`
keyword of the notebooks), or a count-only override that generates synthetic
positional names. -/
inductive ResolutionHint
  | names (ns : List String)
  | count (n : Nat)
deriving DecidableEq, Repr

/-- Modelled from the spec: the resolution-time error taxonomy. -/
inductive ResolutionError
  | ambiguousArity
  | malformedHint
  | introspectionUnavailable
deriving DecidableEq, Repr

/-- Modelled from the spec: the call-time error taxonomy of the invocation
adapter. -/
inductive CallError
  | arityMismatch
deriving DecidableEq, Repr

/-- Modelled from the spec: the ordered fallback chain of the signature
resolver, each step attempted only if the previous is unavailable:
(1) explicit hint names are used verbatim after the malformed-hint check
(names must be unique and non-empty); (2) a count-only hint synthesizes
positional names `p0, p1, ...`; (3) an attached override attribute is used
directly; (4) native introspection of the declared formal parameters, with
the receiver of a bound method stripped so that only free parameters are
reported, falling back to an embedded textual signature from the
documentation string; (5) a variable-arity marker with no override and no
embedded signature fails with `ambiguousArity`; with no metadata at all and
no embedded signature, resolution fails with `introspectionUnavailable`. -/
def resolve (f : ObjectiveFunction) (hint : Option ResolutionHint) :
    Except ResolutionError ParameterDescriptor :=
  match hint with
  | some (.names ns) =>
      if "" ∈ ns ∨ ¬ ns.Nodup then .error .malformedHint
      else .ok ⟨ns, ns.length⟩
  | some (.count n) =>
      .ok ⟨(List.range n).map (fun i => "p" ++ toString i), n⟩
  | none =>
      match f.override with
      | some ns => .ok ⟨ns, ns.length⟩
      | none =>
          match f.native with
          | some (.fixedParams ps) =>
              let free := if f.isBound then ps.tail else ps
              .ok ⟨free, free.length⟩
          | some .varArgs =>
              match f.docSignature with
              | some ds => .ok ⟨ds, ds.length⟩
              | none => .error .ambiguousArity
          | none =>
              match f.docSignature with
              | some ds => .ok ⟨ds, ds.length⟩
              | none => .error .introspectionUnavailable

/-- Modelled from the spec: the same resolution chain written in
state-passing style, returning the objective-function object alongside the
result, so that the absence of side effects on the callable is an explicit
theorem rather than a convention.  Every branch threads the function value
through unchanged. -/
def resolveTracked (f : ObjectiveFunction) (hint : Option ResolutionHint) :
    ObjectiveFunction × Except ResolutionError ParameterDescriptor :=
  match hint with
  | some (.names ns) =>
      if "" ∈ ns ∨ ¬ ns.Nodup then (f, .error .malformedHint)
      else (f, .ok ⟨ns, ns.length⟩)
  | some (.count n) =>
      (f, .ok ⟨(List.range n).map (fun i => "p" ++ toString i), n⟩)
  | none =>
      match f.override with
      | some ns => (f, .ok ⟨ns, ns.length⟩)
      | none =>
          match f.native with
          | some (.fixedParams ps) =>
              let free := if f.isBound then ps.tail else ps
              (f, .ok ⟨free, free.length⟩)
          | some .varArgs =>
              match f.docSignature with
              | some ds => (f, .ok ⟨ds, ds.length⟩)
              | none => (f, .error .ambiguousArity)
          | none =>
              match f.docSignature with
              | some ds => (f, .ok ⟨ds, ds.length⟩)
              | none => (f, .error .introspectionUnavailable)

/-- Modelled from the spec: the invocation adapter, a thin wrapper bound to
one objective function and one parameter descriptor. -/
structure InvocationAdapter where
  function : ObjectiveFunction
  descriptor : ParameterDescriptor

/-- Modelled from the spec: `bind(function, descriptor) -> Adapter`. -/
def bind (f : ObjectiveFunction) (d : ParameterDescriptor) : InvocationAdapter :=
  ⟨f, d⟩

/-- Modelled from the spec: `Adapter.call(values)` checks the arity of the
ordered value sequence against the descriptor and, on success, forwards the
values positionally to the underlying function, preserving their order; on a
mismatch it fails with `arityMismatch` without invoking the function. -/
def InvocationAdapter.call (a : InvocationAdapter) (values : List Rat) :
    Except CallError Rat :=
  if values.length = a.descriptor.arity then .ok (a.function.impl values)
  else .error .arityMismatch

/-- Concrete callable after the notebook model `line(x, a, b)`: an ordinary
function with a fixed, named, introspectable parameter list. -/
def lineFn : ObjectiveFunction where
  override := none
  native := some (.fixedParams ["x", "a", "b"])
  docSignature := none
  isBound := false
  impl := fun vs => match vs with
    | [_, a, b] => a + b
    | _ => 0

/-- Concrete callable after the notebook `cython_func`: a compiled function
with no introspectable metadata and no embedded signature. -/
def cythonFunc : ObjectiveFunction where
  override := none
  native := none
  docSignature := none
  isBound := false
  impl := fun vs => match vs with
    | [x, y, z] => (x - 1) ^ 2 + (y - 2) ^ 2 + (z - 3) ^ 2 + 1
    | _ => 0

/-- Concrete callable after the notebook `cython_f` compiled with
`@cython.embedsignature(True)`: no native metadata, but an embedded textual
signature in its documentation string. -/
def cythonF : ObjectiveFunction where
  override := none
  native := none
  docSignature := some ["x", "y", "z"]
  isBound := false
  impl := fun vs => match vs with
    | [x, y, z] => (x - 1) ^ 2 + (y - 2) ^ 2 + (z - 3) ^ 2 + 1
    | _ => 0

/-- Concrete callable after the notebook `LeastSquares.__call__(self, *par)`
before `func_code` is attached: a bound method declared with variable-arity
positional parameters, no override, no embedded signature. -/
def lsqPlain : ObjectiveFunction where
  override := none
  native := some .varArgs
  docSignature := none
  isBound := true
  impl := fun _ => 0

/-- Concrete callable after the notebook `BetterLeastSquares`: the same
variable-arity callable once `make_func_code(describe(line)[1:])` has been
attached as its override attribute. -/
def lsqBetter : ObjectiveFunction where
  override := some ["a", "b"]
  native := some .varArgs
  docSignature := none
  isBound := true
  impl := fun _ => 0

/-- Concrete bound method with a receiver plus two declared parameters. -/
def boundMethodFn : ObjectiveFunction where
  override := none
  native := some (.fixedParams ["self", "a", "b"])
  docSignature := none
  isBound := true
  impl := fun _ => 0

/-- Helper: the state-passing resolver agrees with `resolve` and never alters
the objective-function object. -/
theorem resolveTracked_eq (f : ObjectiveFunction) (hint : Option ResolutionHint) :
    resolveTracked f hint = (f, resolve f hint) := by
  rcases hint with _ | (ns | n)
  · rcases hov : f.override with _ | ns
    · rcases hn : f.native with _ | (ps | _)
      · rcases hd : f.docSignature with _ | ds <;>
          simp [resolveTracked, resolve, hov, hn, hd]
      · simp [resolveTracked, resolve, hov, hn]
      · rcases hd : f.docSignature with _ | ds <;>
          simp [resolveTracked, resolve, hov, hn, hd]
    · simp [resolveTracked, resolve, hov]
  · by_cases hc : "" ∈ ns ∨ ¬ ns.Nodup <;> simp [resolveTracked, resolve, hc]
  · simp [resolveTracked, resolve]

/-- C1: for every callable carrying an attached override attribute with names
`ns`, `resolve` (with no hint) returns a descriptor with exactly those names
in that order, regardless of the native introspectable signature, the
embedded documentation signature, or the bound-method flag of the callable:
the override outranks introspection in the precedence chain. -/
theorem resolve_override_precedence (f : ObjectiveFunction) (ns : List String)
    (h : f.override = some ns) :
    resolve f none = .ok ⟨ns, ns.length⟩ := by
  simp [resolve, h]

/-- Witness for C1: the notebook `BetterLeastSquares` object carries the
override `["a", "b"]` while its native signature is the variable-arity
marker; resolution returns exactly the override names. -/
theorem resolve_override_precedence_witness :
    resolve lsqBetter none = .ok ⟨["a", "b"], 2⟩ :=
  resolve_override_precedence lsqBetter ["a", "b"] rfl

/-- C2: for every callable declared with variable-arity positional parameters
and carrying no override attribute, no embedded signature, and given no hint,
`resolve` fails with `ambiguousArity`.  `resolve` is the
resolver-construction step, so the failure is synchronous: no descriptor is
produced and no adapter can be bound, hence the error cannot be deferred to
a first invocation. -/
theorem resolve_varargs_fails (f : ObjectiveFunction)
    (h1 : f.override = none) (h2 : f.native = some .varArgs)
    (h3 : f.docSignature = none) :
    resolve f none = .error .ambiguousArity := by
  simp [resolve, h1, h2, h3]

/-- Witness for C2: the notebook `LeastSquares` object before `func_code` is
attached resolves to `ambiguousArity`. -/
theorem resolve_varargs_fails_witness :
    resolve lsqPlain none = .error .ambiguousArity :=
  resolve_varargs_fails lsqPlain rfl rfl rfl

/-- C3: for every callable and every well-formed hint supplying an explicit
ordered list of parameter names (names non-empty and unique, as the
malformed-hint check requires), `resolve` returns exactly those names
verbatim with arity equal to the length of the list, whatever the native
signature of the callable reports. -/
theorem resolve_hint_names_verbatim (f : ObjectiveFunction) (ns : List String)
    (h1 : "" ∉ ns) (h2 : ns.Nodup) :
    resolve f (some (.names ns)) = .ok ⟨ns, ns.length⟩ := by
  simp [resolve, h1, h2]

/-- Witness for C3: the notebook call `Minuit(cython_func, name=("x","y","z"))`
supplies the hint names for a callable with no introspectable signature. -/
theorem resolve_hint_names_verbatim_witness :
    resolve cythonFunc (some (.names ["x", "y", "z"])) = .ok ⟨["x", "y", "z"], 3⟩ :=
  resolve_hint_names_verbatim cythonFunc ["x", "y", "z"] (by decide) (by decide)

/-- C4: for every plain function (no override attribute, not a bound method)
with a fixed, named, introspectable parameter list and no hint supplied,
`resolve` returns a descriptor whose names exactly match the declared
parameter list, in declared order. -/
theorem resolve_introspection_declared (f : ObjectiveFunction) (ps : List String)
    (h1 : f.override = none) (h2 : f.native = some (.fixedParams ps))
    (h3 : f.isBound = false) :
    resolve f none = .ok ⟨ps, ps.length⟩ := by
  simp [resolve, h1, h2, h3]

/-- Witness for C4: `describe(line)` for the notebook model `line(x, a, b)`
returns exactly the declared list. -/
theorem resolve_introspection_declared_witness :
    resolve lineFn none = .ok ⟨["x", "a", "b"], 3⟩ :=
  resolve_introspection_declared lineFn ["x", "a", "b"] rfl rfl rfl

/-- C5: when a callable lacking native signature metadata carries an embedded
textual signature recovered from its documentation string, introspection
succeeds and `resolve` returns the names from that embedded signature. -/
theorem resolve_embedded_signature (f : ObjectiveFunction) (ds : List String)
    (h1 : f.override = none) (h2 : f.native = none)
    (h3 : f.docSignature = some ds) :
    resolve f none = .ok ⟨ds, ds.length⟩ := by
  simp [resolve, h1, h2, h3]

/-- Witness for C5: the notebook `cython_f` compiled with
`@cython.embedsignature(True)` resolves to its embedded names. -/
theorem resolve_embedded_signature_witness :
    resolve cythonF none = .ok ⟨["x", "y", "z"], 3⟩ :=
  resolve_embedded_signature cythonF ["x", "y", "z"] rfl rfl rfl

/-- C6: for every bound method declaring a receiver plus k free parameters,
the resolved descriptor contains exactly the k free-parameter names with the
receiver name stripped. -/
theorem resolve_bound_method_strips_receiver (f : ObjectiveFunction)
    (r : String) (ps : List String)
    (h1 : f.override = none) (h2 : f.native = some (.fixedParams (r :: ps)))
    (h3 : f.isBound = true) :
    resolve f none = .ok ⟨ps, ps.length⟩ := by
  simp [resolve, h1, h2, h3]

/-- Witness for C6: a bound method with receiver `self` plus two declared
parameters resolves to exactly the two free names. -/
theorem resolve_bound_method_strips_receiver_witness :
    resolve boundMethodFn none = .ok ⟨["a", "b"], 2⟩ :=
  resolve_bound_method_strips_receiver boundMethodFn "self" ["a", "b"] rfl rfl rfl

/-- C7: for every adapter bound to a function and descriptor, `call values`
forwards the value sequence to the function positionally and unchanged (so in
exactly the order fixed by the name sequence of the descriptor) whenever the
length of `values` equals the arity of the descriptor; whenever the lengths
differ, `call` fails with `arityMismatch`, and the result is independent of
the underlying function, so the function is never invoked, not even
partially. -/
theorem adapter_call_forwards_or_fails (f g : ObjectiveFunction)
    (d : ParameterDescriptor) (values : List Rat) :
    (values.length = d.arity →
      ( bind f d).call values = .ok (f.impl values)) ∧
    (values.length ≠ d.arity →
      ( bind f d).call values = .error .arityMismatch ∧
      ( bind g d).call values = ( bind f d).call values) := by
  constructor
  · intro h
    simp [SignatureResolver.bind, InvocationAdapter.call, h]
  · intro h
    constructor <;> simp [SignatureResolver.bind, InvocationAdapter.call, h]

/-- Witness for C7: binding the notebook `cython_func` to a three-name
descriptor, a matching call forwards the three values positionally and a
two-value call fails with `arityMismatch`. -/
theorem adapter_call_forwards_or_fails_witness :
    ( bind cythonFunc ⟨["x", "y", "z"], 3⟩).call [1, 2, 3]
        = .ok (cythonFunc.impl [1, 2, 3]) ∧
    ( bind cythonFunc ⟨["x", "y", "z"], 3⟩).call [1, 2]
        = .error .arityMismatch :=
  ⟨(adapter_call_forwards_or_fails cythonFunc lineFn ⟨["x", "y", "z"], 3⟩
      [1, 2, 3]).1 rfl,
   ((adapter_call_forwards_or_fails cythonFunc lineFn ⟨["x", "y", "z"], 3⟩
      [1, 2]).2 (by decide)).1⟩

/-- C8: `resolve` is deterministic and idempotent: any two successful
resolutions of the same function with the same hint yield value-equal
descriptors, with the same name sequence in the same order and the same
arity. -/
theorem resolve_deterministic (f : ObjectiveFunction)
    (hint : Option ResolutionHint) (d₁ d₂ : ParameterDescriptor)
    (h1 : resolve f hint = .ok d₁) (h2 : resolve f hint = .ok d₂) :
    d₁.names = d₂.names ∧ d₁.arity = d₂.arity := by
  rw [h1] at h2
  injection h2 with h
  subst h
  exact ⟨rfl, rfl⟩

/-- Witness for C8: two resolutions of the notebook model `line` agree. -/
theorem resolve_deterministic_witness :
    (⟨["x", "a", "b"], 3⟩ : ParameterDescriptor).names
        = (⟨["x", "a", "b"], 3⟩ : ParameterDescriptor).names ∧
    (⟨["x", "a", "b"], 3⟩ : ParameterDescriptor).arity
        = (⟨["x", "a", "b"], 3⟩ : ParameterDescriptor).arity :=
  resolve_deterministic lineFn none ⟨["x", "a", "b"], 3⟩ ⟨["x", "a", "b"], 3⟩
    rfl rfl

/-- C9: resolution has no side effects: the state-passing resolver returns
the objective-function object unchanged and computes exactly the purely
functional result, and the adapter produced by `bind` stores exactly the
function and descriptor it was constructed from; descriptors and adapters
are plain immutable values after construction. -/
theorem resolve_pure_frame (f : ObjectiveFunction)
    (hint : Option ResolutionHint) (d : ParameterDescriptor) :
    (resolveTracked f hint).1 = f ∧
    (resolveTracked f hint).2 = resolve f hint ∧
    ( bind f d).function = f ∧ ( bind f d).descriptor = d :=
  ⟨by rw [resolveTracked_eq], by rw [resolveTracked_eq], rfl, rfl⟩

/-- C10: introspection reports every declared positional parameter of a plain
function, including a leading data-carrying argument such as the x of a model
f(x, a, b) — only the implicit receiver of a bound method is stripped
automatically — so a caller wrapping a model must itself drop the
non-fittable leading parameter (describe(line)[1:] in the notebook) and
attach the remainder as the override of the wrapper, which then resolves to
exactly those remaining names. -/
theorem introspection_reports_all_declared (f : ObjectiveFunction)
    (ps : List String)
    (h1 : f.override = none) (h2 : f.native = some (.fixedParams ps))
    (h3 : f.isBound = false) :
    resolve f none = .ok ⟨ps, ps.length⟩ ∧
    ∀ w : ObjectiveFunction, w.override = some ps.tail →
      resolve w none = .ok ⟨ps.tail, ps.tail.length⟩ := by
  constructor
  · simp [resolve, h1, h2, h3]
  · intro w hw
    simp [resolve, hw]

/-- Witness for C10: `describe(line)` reports the leading data argument x,
and the notebook wrapper carrying `make_func_code(describe(line)[1:])`
resolves to `["a", "b"]`. -/
theorem introspection_reports_all_declared_witness :
    resolve lineFn none = .ok ⟨["x", "a", "b"], 3⟩ ∧
    resolve lsqBetter none = .ok ⟨["a", "b"], 2⟩ :=
  ⟨(introspection_reports_all_declared lineFn ["x", "a", "b"] rfl rfl rfl).1,
   (introspection_reports_all_declared lineFn ["x", "a", "b"] rfl rfl rfl).2
     lsqBetter rfl⟩

end SignatureResolver
